import Mathlib

/-!
Shallow embedding of the orchestration and decision engine of the
file-scraper repository: the grading engine (`file_scraper/graders.py`),
the scraper dispatcher (`file_scraper/iterator.py`), and the adapters
`ScraperNotFound` / `MimeScraper` (`file_scraper/dummy/dummy_scraper.py`),
`GhostscriptScraper` (`file_scraper/ghostscript/ghostscript_scraper.py`),
`WarcWarctoolsScraper` (`file_scraper/warctools/warctools_scraper.py`) and
`MediainfoScraper` (`file_scraper/mediainfo/mediainfo_scraper.py`).

Python dictionaries become association lists (`List (key × value)`), whose
`List.lookup` matches Python's exact-key dictionary lookup; a Python
`KeyError` escaping a function is modelled by an `Option` result of `none`;
Python `None` becomes `Option.none`.  The tri-state well-formedness verdict
(True / False / None) is modelled as `Option Bool`.
-/

namespace FileScraper

/-- The digital preservation grades used by `file_scraper.graders`
(`RECOMMENDED`, `ACCEPTABLE`, `UNACCEPTABLE` imported from
`file_scraper.defaults`: three distinct opaque constants). -/
inductive Grade where
| recommended
| acceptable
| unacceptable
deriving DecidableEq, Repr

def RECOMMENDED : Grade := Grade.recommended

def ACCEPTABLE : Grade := Grade.acceptable

def UNACCEPTABLE : Grade := Grade.unacceptable

/-- Sentinel from `file_scraper.defaults`: attribute not applicable. -/
def UNAP : String := "(:unap)"

/-- Sentinel from `file_scraper.defaults`: value could not be determined. -/
def UNAV : String := "(:unav)"

/-- One stream dictionary as handed to the graders.  The Metadata Model
contract makes `mimetype` and `version` mandatory for every stream, while
`charset` is optional; a missing `charset` dictionary key is modelled as
`none`. -/
structure StreamRec where
  mimetype : String
  version : String
  charset : Option String
deriving DecidableEq, Repr

namespace MIMEGrader

/-- The `MIMEGrader.formats` table of `graders.py`, in source order. -/
def formats : List (String × List (String × Grade)) :=
  [ ("application/epub+zip",
      [("2.0.1", RECOMMENDED), ("3.0.0", RECOMMENDED), ("3.0.1", RECOMMENDED),
       ("3.2", RECOMMENDED)]),
    ("application/vnd.oasis.opendocument.text",
      [("1.0", RECOMMENDED), ("1.1", RECOMMENDED), ("1.2", RECOMMENDED),
       ("1.3", RECOMMENDED)]),
    ("application/vnd.oasis.opendocument.spreadsheet",
      [("1.0", RECOMMENDED), ("1.1", RECOMMENDED), ("1.2", RECOMMENDED),
       ("1.3", RECOMMENDED)]),
    ("application/vnd.oasis.opendocument.presentation",
      [("1.0", RECOMMENDED), ("1.1", RECOMMENDED), ("1.2", RECOMMENDED),
       ("1.3", RECOMMENDED)]),
    ("application/vnd.oasis.opendocument.graphics",
      [("1.0", RECOMMENDED), ("1.1", RECOMMENDED), ("1.2", RECOMMENDED),
       ("1.3", RECOMMENDED)]),
    ("application/vnd.oasis.opendocument.formula",
      [("1.0", RECOMMENDED), ("1.2", RECOMMENDED), ("1.3", RECOMMENDED)]),
    ("application/pdf",
      [("A-1a", RECOMMENDED), ("A-1b", RECOMMENDED), ("A-2a", RECOMMENDED),
       ("A-2b", RECOMMENDED), ("A-2u", RECOMMENDED), ("A-3a", RECOMMENDED),
       ("A-3b", RECOMMENDED), ("A-3u", RECOMMENDED), ("1.2", ACCEPTABLE),
       ("1.3", ACCEPTABLE), ("1.4", ACCEPTABLE), ("1.5", ACCEPTABLE),
       ("1.6", ACCEPTABLE), ("1.7", ACCEPTABLE)]),
    ("audio/x-aiff", [(UNAP, ACCEPTABLE), ("1.3", RECOMMENDED)]),
    ("audio/x-wav", [(UNAP, RECOMMENDED), ("2", RECOMMENDED)]),
    ("audio/flac", [("1.2.1", RECOMMENDED)]),
    ("audio/L8", [(UNAP, RECOMMENDED)]),
    ("audio/L16", [(UNAP, RECOMMENDED)]),
    ("audio/L20", [(UNAP, RECOMMENDED)]),
    ("audio/L24", [(UNAP, RECOMMENDED)]),
    ("audio/mp4", [(UNAP, RECOMMENDED)]),
    ("image/x-dpx", [("2.0", RECOMMENDED)]),
    ("video/x-ffv", [("3", RECOMMENDED)]),
    ("video/jpeg2000", [(UNAP, RECOMMENDED)]),
    ("video/mp4", [(UNAP, RECOMMENDED)]),
    ("image/tiff",
      [("1.3", RECOMMENDED), ("1.4", RECOMMENDED), ("1.5", RECOMMENDED),
       ("6.0", RECOMMENDED), ("1.0", RECOMMENDED)]),
    ("image/jpeg",
      [("1.00", RECOMMENDED), ("1.01", RECOMMENDED), ("1.02", RECOMMENDED),
       ("2.0", RECOMMENDED), ("2.1", RECOMMENDED), ("2.2", RECOMMENDED),
       ("2.2.1", RECOMMENDED), ("2.3", RECOMMENDED), ("2.3.1", RECOMMENDED),
       ("2.3.2", RECOMMENDED)]),
    ("image/jp2", [(UNAP, RECOMMENDED)]),
    ("image/svg+xml", [("1.1", RECOMMENDED)]),
    ("image/png", [("1.2", RECOMMENDED)]),
    ("application/warc", [("1.0", RECOMMENDED)]),
    ("application/x-siard", [("2.0", RECOMMENDED), ("2.1", RECOMMENDED)]),
    ("application/x-spss-por", [(UNAP, RECOMMENDED)]),
    ("application/matlab", [("7", RECOMMENDED), ("7.3", RECOMMENDED)]),
    ("application/x-hdf5", [("1.1", RECOMMENDED)]),
    ("application/msword", [("97-2003", ACCEPTABLE)]),
    ("application/vnd.openxmlformats-officedocument.wordprocessingml.document",
      [("2007 onwards", ACCEPTABLE)]),
    ("application/vnd.ms-excel", [("8", ACCEPTABLE), ("8X", ACCEPTABLE)]),
    ("application/vnd.openxmlformats-officedocument.spreadsheetml.sheet",
      [("2007 onwards", ACCEPTABLE)]),
    ("application/vnd.ms-powerpoint", [("97-2003", ACCEPTABLE)]),
    ("application/vnd.openxmlformats-officedocument.presentationml.presentation",
      [("2007 onwards", ACCEPTABLE)]),
    ("audio/mpeg", [("1", ACCEPTABLE), ("2", ACCEPTABLE)]),
    ("audio/x-ms-wma", [("9", ACCEPTABLE)]),
    ("video/dv", [(UNAP, ACCEPTABLE)]),
    ("video/mpeg", [("1", ACCEPTABLE), ("2", ACCEPTABLE)]),
    ("video/x-ms-wmv", [("9", ACCEPTABLE)]),
    ("application/postscript", [("3.0", ACCEPTABLE)]),
    ("image/gif", [("1987a", ACCEPTABLE), ("1989a", ACCEPTABLE)]),
    ("video/avi", [(UNAP, RECOMMENDED)]),
    ("video/x-matroska", [("4", RECOMMENDED)]),
    ("video/MP2T", [(UNAP, RECOMMENDED)]),
    ("application/mxf", [(UNAP, RECOMMENDED)]),
    ("video/mj2", [(UNAP, RECOMMENDED)]),
    ("video/quicktime", [(UNAP, RECOMMENDED)]),
    ("video/x-ms-asf", [(UNAP, ACCEPTABLE)]),
    ("video/MP1S", [(UNAP, ACCEPTABLE)]),
    ("video/MP2P", [(UNAP, ACCEPTABLE)]) ]

/-- The `is_supported` class method of `MIMEGrader`: membership of the
mimetype among the table keys. -/
def is_supported (mimetype : String) : Bool :=
  (formats.lookup mimetype).isSome

/-- The `grade` method of `MIMEGrader`: the double dictionary lookup
`formats[mimetype][version]`, with the `KeyError` handler turning either
lookup miss into `UNACCEPTABLE`. -/
def grade (mimetype version : String) : Grade :=
  match formats.lookup mimetype with
  | none => UNACCEPTABLE
  | some table =>
    match table.lookup version with
    | none => UNACCEPTABLE
    | some g => g

end MIMEGrader

namespace TextGrader

/-- The `TextGrader.formats` table of `graders.py`, in source order. -/
def formats : List (String × List (String × Grade)) :=
  [ ("text/csv", [(UNAP, RECOMMENDED)]),
    ("application/xhtml+xml",
      [("1.0", RECOMMENDED), ("1.1", RECOMMENDED), ("5.0", RECOMMENDED)]),
    ("text/xml", [("1.0", RECOMMENDED), ("1.1", RECOMMENDED)]),
    ("text/html",
      [("4.01", RECOMMENDED), ("5.0", RECOMMENDED), ("5.1", RECOMMENDED),
       ("5.2", RECOMMENDED)]),
    ("text/plain", [(UNAP, RECOMMENDED)]),
    ("application/gml+xml", [("3.2.1", RECOMMENDED)]),
    ("application/vnd.google-earth.kml+xml", [("2.3", RECOMMENDED)]) ]

/-- The `allowed_charsets` class attribute of `TextGrader`. -/
def allowed_charsets : List String := ["ISO-8859-15", "UTF-8", "UTF-16", "UTF-32"]

/-- The `is_supported` class method of `TextGrader`. -/
def is_supported (mimetype : String) : Bool :=
  (formats.lookup mimetype).isSome

/-- The try/except table lookup at the start of `TextGrader.grade`:
`formats[mimetype][version]` with `KeyError` giving `UNACCEPTABLE`. -/
def tableGrade (mimetype version : String) : Grade :=
  match formats.lookup mimetype with
  | none => UNACCEPTABLE
  | some table =>
    match table.lookup version with
    | none => UNACCEPTABLE
    | some g => g

/-- The charset loop of `TextGrader.grade`: for each stream, the access
`stream["charset"]` raises `KeyError` when the key is absent (result
`none`); otherwise a charset outside `allowed_charsets` downgrades the
grade to `UNACCEPTABLE`. -/
def charsetLoop : List StreamRec → Grade → Option Grade
  | [], g => some g
  | s :: rest, g =>
    match s.charset with
    | none => none
    | some c =>
      charsetLoop rest (if allowed_charsets.contains c then g else UNACCEPTABLE)

/-- The `grade` method of `TextGrader`: table lookup followed by the
charset loop over all streams. -/
def grade (mimetype version : String) (streams : List StreamRec) : Option Grade :=
  charsetLoop streams (tableGrade mimetype version)

end TextGrader

namespace ContainerGrader

/-- The `ContainerGrader.recommended_formats` table of `graders.py`:
per container mimetype, the set of recommended contained
(mimetype, version) pairs, in source order. -/
def recommended_formats : List (String × List (String × String)) :=
  [ ("video/avi",
      [("audio/L16", UNAP), ("audio/L8", UNAP), ("audio/L20", UNAP),
       ("audio/L24", UNAP)]),
    ("video/dv",
      [("audio/L16", UNAP), ("audio/L8", UNAP), ("audio/L20", UNAP),
       ("audio/L24", UNAP)]),
    ("video/x-matroska",
      [("audio/L16", UNAP), ("audio/L8", UNAP), ("audio/L20", UNAP),
       ("audio/L24", UNAP), ("audio/flac", "1.2.1"), ("video/x-ffv", "3")]),
    ("video/MP2T", [("audio/mp4", UNAP), ("video/mp4", UNAP)]),
    ("video/mp4", [("audio/mp4", UNAP), ("video/mp4", UNAP)]),
    ("application/mxf",
      [("audio/mp4", UNAP), ("audio/L16", UNAP), ("audio/L8", UNAP),
       ("audio/L20", UNAP), ("audio/L24", UNAP), ("video/mp4", UNAP),
       ("video/jpeg2000", UNAP)]),
    ("video/mj2",
      [("audio/L16", UNAP), ("audio/L8", UNAP), ("audio/L20", UNAP),
       ("audio/L24", UNAP), ("video/jpeg2000", UNAP)]),
    ("video/quicktime",
      [("audio/mp4", UNAP), ("audio/L16", UNAP), ("audio/L8", UNAP),
       ("audio/L20", UNAP), ("audio/L24", UNAP), ("video/mp4", UNAP),
       ("video/jpeg2000", UNAP)]) ]

/-- The `ContainerGrader.acceptable_formats` table of `graders.py`. -/
def acceptable_formats : List (String × List (String × String)) :=
  [ ("video/x-ms-asf", [("audio/x-ms-wma", "9"), ("video/x-ms-wmv", "9")]),
    ("video/avi",
      [("audio/mpeg", "1"), ("audio/mpeg", "2"), ("video/dv", UNAP),
       ("video/mpeg", "2")]),
    ("video/dv", [("video/dv", UNAP)]),
    ("video/MP1S",
      [("audio/mpeg", "1"), ("audio/mpeg", "2"), ("video/mpeg", "2")]),
    ("video/MP2P",
      [("audio/mpeg", "1"), ("audio/mpeg", "2"), ("video/mpeg", "2")]),
    ("video/MP2T", [("video/mpeg", "2")]),
    ("video/mp4",
      [("audio/mpeg", "1"), ("audio/mpeg", "2"), ("video/mpeg", "2")]),
    ("application/mxf",
      [("audio/mpeg", "1"), ("audio/mpeg", "2"), ("video/dv", UNAP),
       ("video/mpeg", "2")]),
    ("video/quicktime",
      [("audio/mpeg", "1"), ("audio/mpeg", "2"), ("video/dv", UNAP),
       ("video/mpeg", "2")]) ]

/-- The `is_supported` class method of `ContainerGrader`: the mimetype is
a key of either table. -/
def is_supported (mimetype : String) : Bool :=
  (recommended_formats.lookup mimetype).isSome
    || (acceptable_formats.lookup mimetype).isSome

/-- `self.recommended_formats.get(container_mimetype, set())` in
`ContainerGrader.grade`: dictionary lookup with the empty set default. -/
def recommendedFor (mimetype : String) : List (String × String) :=
  (recommended_formats.lookup mimetype).getD []

/-- `self.acceptable_formats.get(container_mimetype, set())` in
`ContainerGrader.grade`. -/
def acceptableFor (mimetype : String) : List (String × String) :=
  (acceptable_formats.lookup mimetype).getD []

/-- The `(mimetype, version)` pairs of all streams whose index differs
from 0, as built by `ContainerGrader.grade` (`contained_formats`). -/
def containedFormats (streams : List (Nat × StreamRec)) : List (String × String) :=
  (streams.filter (fun p => p.1 != 0)).map (fun p => (p.2.mimetype, p.2.version))

/-- The `grade` method of `ContainerGrader`.  `self.streams[0]` raises
`KeyError` when no stream has index 0 (result `none`); otherwise the two
set-difference emptiness tests decide the grade.  `contained - recommended
== empty set` is exactly: every contained pair occurs in the recommended
list; similarly for the second test with the acceptable list added. -/
def grade (streams : List (Nat × StreamRec)) : Option Grade :=
  match streams.lookup 0 with
  | none => none
  | some container =>
    let container_mimetype := container.mimetype
    let contained_formats := containedFormats streams
    let recommended := recommendedFor container_mimetype
    let acceptable := acceptableFor container_mimetype
    if contained_formats.all (fun f => recommended.contains f) then
      some RECOMMENDED
    else if contained_formats.all
        (fun f => recommended.contains f || acceptable.contains f) then
      some ACCEPTABLE
    else
      some UNACCEPTABLE

end ContainerGrader

/-! ## Scraper dispatcher (`file_scraper/iterator.py`) -/

/-- The scraper classes named in `iterator.py`: the 25 entries of the
fixed list inside `iter_scrapers`, plus the sentinel `ScraperNotFound`. -/
inductive ScraperClass where
| WandScraper
| GhostscriptScraper
| JHoveGifScraper
| JHoveHtmlScraper
| JHoveJpegScraper
| JHoveTiffScraper
| JHovePdfScraper
| JHoveWavScraper
| CsvScraper
| FFMpegScraper
| LxmlScraper
| MediainfoScraper
| OfficeScraper
| PilScraper
| PngcheckScraper
| PsppScraper
| SchematronScraper
| TextfileScraper
| VerapdfScraper
| VnuScraper
| XmllintScraper
| GzipWarctoolsScraper
| WarcWarctoolsScraper
| ArcWarctoolsScraper
| MagicScraper
| ScraperNotFound
deriving DecidableEq, Repr

/-- The argument tuple of `iter_scrapers`: identified mimetype and version,
the well-formedness flag and the (opaque) extra parameters.  The per-class
`is_supported` static methods live in the individual scraper modules, so
their outcome on this tuple is abstracted as a predicate argument of
`iter_scrapers` below. -/
structure ScraperInput where
  mimetype : String
  version : Option String
  check_wellformed : Bool
deriving DecidableEq, Repr

/-- The fixed `scrapers` list inside `iter_scrapers`, in source order. -/
def scrapersList : List ScraperClass :=
  [ ScraperClass.WandScraper, ScraperClass.GhostscriptScraper,
    ScraperClass.JHoveGifScraper, ScraperClass.JHoveHtmlScraper,
    ScraperClass.JHoveJpegScraper, ScraperClass.JHoveTiffScraper,
    ScraperClass.JHovePdfScraper, ScraperClass.JHoveWavScraper,
    ScraperClass.CsvScraper, ScraperClass.FFMpegScraper,
    ScraperClass.LxmlScraper, ScraperClass.MediainfoScraper,
    ScraperClass.OfficeScraper, ScraperClass.PilScraper,
    ScraperClass.PngcheckScraper, ScraperClass.PsppScraper,
    ScraperClass.SchematronScraper, ScraperClass.TextfileScraper,
    ScraperClass.VerapdfScraper, ScraperClass.VnuScraper,
    ScraperClass.XmllintScraper, ScraperClass.GzipWarctoolsScraper,
    ScraperClass.WarcWarctoolsScraper, ScraperClass.ArcWarctoolsScraper,
    ScraperClass.MagicScraper ]

/-- The loop of `iter_scrapers`: walk the class list carrying the
`scraper_found` flag, yield every class whose `is_supported` answers true,
and after the loop yield `ScraperNotFound` when the flag is still unset. -/
def iterScrapersGo (isSupported : ScraperClass → ScraperInput → Bool)
    (inp : ScraperInput) : List ScraperClass → Bool → List ScraperClass
  | [], found => if found then [] else [ScraperClass.ScraperNotFound]
  | s :: rest, found =>
    if isSupported s inp then
      s :: iterScrapersGo isSupported inp rest true
    else
      iterScrapersGo isSupported inp rest found

/-- The generator `iter_scrapers(mimetype, version, check_wellformed,
params)` of `iterator.py`, as the list of classes it yields, parameterised
by the per-class `is_supported` outcomes. -/
def iter_scrapers (isSupported : ScraperClass → ScraperInput → Bool)
    (inp : ScraperInput) : List ScraperClass :=
  iterScrapersGo isSupported inp scrapersList false

/-! ## Tri-state well-formedness and the spec-modelled base-class pieces -/

/-- Modelled from the spec: `BaseScraper` (not under `src/`) gives every
adapter the default well-formedness computation, "True if `_errors` is
empty and mimetype+version matched their supported-declaration, else
False".  The outcome of the supported-declaration match is the Boolean
`matched` argument. -/
def baseWellFormed {α : Type} (errors : List α) (matched : Bool) : Option Bool :=
  some (errors.isEmpty && matched)

/-- Modelled from the spec: the Result Aggregator (not under `src/`)
merges per-adapter verdicts so that "effective well-formedness is False if
any adapter that ran and reported a determination reported False;
otherwise True if at least one adapter reported True; otherwise None". -/
def mergeWellFormed (verdicts : List (Option Bool)) : Option Bool :=
  if verdicts.contains (some false) then some false
  else if verdicts.contains (some true) then some true
  else none

/-! ## `ScraperNotFound` (`file_scraper/dummy/dummy_scraper.py`) -/

/-- The state of a dummy scraper: messages, errors and collected
`DummyMeta` stream entries (`DummyMeta` carries no data of its own, so the
stream list is just a count of appended entries, kept as a list of unit
markers). -/
structure DummyState where
  messages : List String
  errors : List String
  streams : List Unit
deriving DecidableEq, Repr

/-- The fresh state a newly constructed scraper starts from (`BaseScraper`
initialises empty message, error and stream lists). -/
def DummyState.fresh : DummyState := ⟨[], [], []⟩

namespace ScraperNotFound

/-- The error string appended by `ScraperNotFound.scrape_file`. -/
def notFoundError : String :=
  "Proper scraper was not found. The file was not analyzed."

/-- The `scrape_file` method of `ScraperNotFound`: append one error string
and one `DummyMeta` stream entry. -/
def scrape_file (s : DummyState) : DummyState :=
  { s with errors := s.errors ++ [notFoundError], streams := s.streams ++ [()] }

/-- The `well_formed` property of `ScraperNotFound`: unconditionally
False, whatever the collected state. -/
def well_formed (_s : DummyState) : Option Bool :=
  some false

end ScraperNotFound

/-! ## String helpers shared by the adapters -/

/-- Python's `str.lower()`, character by character. -/
def toLowerStr (s : String) : String :=
  String.mk (s.data.map Char.toLower)

/-- Python's substring test `pat in s`, on character lists: `pat` occurs
contiguously inside the list. -/
def containsPat (pat : List Char) : List Char → Bool
  | [] => pat.isEmpty
  | c :: rest => pat.isPrefixOf (c :: rest) || containsPat pat rest

/-! ## `MimeScraper` (`file_scraper/dummy/dummy_scraper.py`) -/

/-- The error entries `MimeScraper.scrape_file` can append, as structured
data carrying the fields interpolated into the Python message strings. -/
inductive MimeErr where
| notSupported
| mimeMismatch (predefined : Option String) (resulted : String)
| versionMismatch (predefined : String) (resulted : String)
deriving DecidableEq, Repr

/-- State of a `MimeScraper` run. -/
structure MimeState where
  messages : List String
  errors : List MimeErr
  streams : List Unit
deriving DecidableEq, Repr

/-- Inputs of a `MimeScraper` run: the caller-predefined mimetype and
version, and the `mimetype` / `version` entries of `params` (the
effective values resulting from detection and scraping; an absent entry
defaults to `"(:unav)"` via `params.get`). -/
structure MimeEnv where
  predefined_mimetype : Option String
  predefined_version : Option String
  params_mimetype : Option String
  params_version : Option String
deriving DecidableEq, Repr

namespace MimeScraper

/-- The `_MIME_DICT` class attribute: mimetypes accepted as aliases of a
predefined mimetype. -/
def MIME_DICT : List (String × List String) :=
  [("application/gzip",
    ["application/warc", "application/x-internet-archive"])]

/-- The mimetype block of `MimeScraper.scrape_file`: `mime` is
`params.get("mimetype", "(:unav)")` and `pre_list` the alias list for the
predefined mimetype; an unavailable result records the not-supported
error, a result equal neither to the predefined mimetype nor to one of
its aliases records the mimetype mismatch error. -/
def mimeErrors (env : MimeEnv) : List MimeErr :=
  let mime := env.params_mimetype.getD UNAV
  let pre_list :=
    (env.predefined_mimetype.bind (fun m => MIME_DICT.lookup m)).getD []
  if mime == UNAV then
    [MimeErr.notSupported]
  else if env.predefined_mimetype != some mime && !(pre_list.contains mime) then
    [MimeErr.mimeMismatch env.predefined_mimetype mime]
  else []

/-- The version block of `MimeScraper.scrape_file`: a predefined version
that is neither `None` nor equal to `params.get("version", "(:unav)")`
records the version mismatch error. -/
def versionErrors (env : MimeEnv) : List MimeErr :=
  match env.predefined_version with
  | none => []
  | some pv =>
    if pv != env.params_version.getD UNAV then
      [MimeErr.versionMismatch pv (env.params_version.getD UNAV)]
    else []

/-- The `scrape_file` method of `MimeScraper`: record the check message,
compare the resulting mimetype/version from `params` against the
predefined values, appending the corresponding error entries, and append
one `DummyMeta` stream.  The trailing `_check_supported` call (defined in
the base class, outside `src/`) is passed `allow_unav_mime`,
`allow_unav_version` and `allow_unap_version`, and `DummyMeta` reports the
tolerated `"(:unav)"` mimetype and version, so per the spec it appends no
error and is omitted here. -/
def scrape_file (env : MimeEnv) : MimeState :=
  { messages := ["MIME type and file format version check"],
    errors := mimeErrors env ++ versionErrors env,
    streams := [()] }

end MimeScraper

/-! ## `GhostscriptScraper` (`file_scraper/ghostscript/ghostscript_scraper.py`) -/

/-- The error entries `GhostscriptScraper.scrape_file` can append. -/
inductive GhostErr where
| invalidReturncode (rc : Int) (stderr : String)
| stderrText (s : String)
deriving DecidableEq, Repr

/-- State of a `GhostscriptScraper` run.  The stream entries come from
`iterate_models` over `GhostscriptMeta` (a module outside `src/`), so
their content is left opaque. -/
structure GhostState where
  messages : List String
  errors : List GhostErr
  streams : List Unit
deriving DecidableEq, Repr

/-- Inputs of a `GhostscriptScraper` run: the `gs` invocation outcome
(`stdout` and `stderr` already decoded with replacement of undecodable
bytes), plus the opaque stream entries `iterate_models` would yield. -/
structure GhostEnv where
  returncode : Int
  stdout : String
  stderr : String
  models : List Unit
deriving DecidableEq, Repr

namespace GhostscriptScraper

/-- The `scrape_file` method of `GhostscriptScraper`: record an error on a
nonzero exit code, collect stdout as a message, treat any stderr text as
an error (otherwise record "Well-Formed and valid"), and set the streams
from `iterate_models`.  The trailing `_check_supported` call is passed
`allow_unav_mime` and `allow_unav_version` (base class outside `src/`);
it can only append errors and is tracked by the `matched` flag of
`well_formed` below. -/
def scrape_file (env : GhostEnv) : GhostState :=
  let errs :=
    if env.returncode != 0 then
      [GhostErr.invalidReturncode env.returncode env.stderr]
    else []
  if env.stderr != "" then
    { messages := [env.stdout],
      errors := errs ++ [GhostErr.stderrText env.stderr],
      streams := env.models }
  else
    { messages := [env.stdout, "Well-Formed and valid"],
      errors := errs,
      streams := env.models }

/-- The marker scan of `GhostscriptScraper.well_formed` on one message:
`"**** error" in message.lower() or "**** warning" in message.lower()`. -/
def hasMarker (message : String) : Bool :=
  containsPat "**** error".data (toLowerStr message).data
    || containsPat "**** warning".data (toLowerStr message).data

/-- The `well_formed` property of `GhostscriptScraper`: if any collected
message contains a failure marker the answer is False, otherwise the
base-class default computation (`baseWellFormed`, modelled from the spec)
decides. -/
def well_formed (s : GhostState) (matched : Bool) : Option Bool :=
  if s.messages.any hasMarker then some false
  else baseWellFormed s.errors matched

end GhostscriptScraper

/-! ## `WarcWarctoolsScraper` (`file_scraper/warctools/warctools_scraper.py`) -/

/-- The error entries `WarcWarctoolsScraper.scrape_file` can append.  The
second entry of the failed-returncode case is a Python *list* of filtered
stderr lines appended as a single element, hence the `stderrLines`
constructor carrying a list. -/
inductive WarcErr where
| emptyFile
| failedReturncode (rc : Int)
| stderrLines (lines : List String)
| exceptionText (s : String)
deriving DecidableEq, Repr

/-- The `WarcWarctoolsMeta` metadata model
(`file_scraper/warctools/warctools_model.py`): it stores the first line of
the archive. -/
structure WarcWarctoolsMeta where
  line : String
deriving DecidableEq, Repr

/-- Outcome of the `gzip.open(...).readline()` attempt in
`WarcWarctoolsScraper.scrape_file`: a successful compressed read, an
`IOError` (the file is then reopened uncompressed and its first line
read), or any other exception (corrupted gzip data). -/
inductive GzipReadResult where
| ok (line : String)
| ioError (line : String)
| failure (message : String)
deriving DecidableEq, Repr

/-- State of a `WarcWarctoolsScraper` run. -/
structure WarcState where
  messages : List String
  errors : List WarcErr
  streams : List WarcWarctoolsMeta
deriving DecidableEq, Repr

/-- Inputs of a `WarcWarctoolsScraper` run: the well-formedness flag, the
file size, the `warcvalid` invocation outcome (its stderr already split on
newlines), and the archive read outcome. -/
structure WarcEnv where
  check_wellformed : Bool
  size : Nat
  returncode : Int
  stdout : String
  stderrLines : List String
  gzipRead : GzipReadResult
deriving DecidableEq, Repr

namespace WarcWarctoolsScraper

/-- The `scrape_file` method of `WarcWarctoolsScraper`.  The scraper has
`_only_wellformed`, so without the well-formedness check it only records
the skip message.  An empty file records the "Empty file." error and
returns with no stream.  Otherwise `warcvalid` failures are recorded (the
stderr lines containing "ignored line" filtered out), stdout is collected,
and on a successful or `IOError` read of the first line the metadata loop
over `_supported_metadata = [WarcWarctoolsMeta]` appends a stream entry,
the success message is recorded, and the same loop is written out a second
time, appending a second identical entry.  The final `_check_supported`
call appends no error: `WarcWarctoolsMeta` reports the declared mimetype
`application/warc` and `_allow_versions` accepts any version. -/
def scrape_file (env : WarcEnv) : WarcState :=
  if !env.check_wellformed then
    { messages := ["Skipping scraper: Well-formed check not used."],
      errors := [], streams := [] }
  else if env.size == 0 then
    { messages := [], errors := [WarcErr.emptyFile], streams := [] }
  else
    let errs :=
      if env.returncode != 0 then
        [WarcErr.failedReturncode env.returncode,
         WarcErr.stderrLines (env.stderrLines.filter
           (fun l => !(containsPat "ignored line".data l.data)))]
      else []
    match env.gzipRead with
    | GzipReadResult.failure msg =>
      { messages := [env.stdout],
        errors := errs ++ [WarcErr.exceptionText msg],
        streams := [] }
    | GzipReadResult.ok line =>
      { messages := [env.stdout, "File was analyzed successfully."],
        errors := errs,
        streams := [WarcWarctoolsMeta.mk line] ++ [WarcWarctoolsMeta.mk line] }
    | GzipReadResult.ioError line =>
      { messages := [env.stdout, "File was analyzed successfully."],
        errors := errs,
        streams := [WarcWarctoolsMeta.mk line] ++ [WarcWarctoolsMeta.mk line] }

end WarcWarctoolsScraper

/-! ## `MediainfoScraper` (`file_scraper/mediainfo/mediainfo_scraper.py`) -/

/-- The error entries `MediainfoScraper` can append, as structured data. -/
inductive MediaErr where
| analyzeError
| exceptionText (s : String)
| fileTruncated
| noAVTracks
| truncatedTrack
| unidentifiedStream (trackType : String)
| checkSupportedErr (s : String)
deriving DecidableEq, Repr

/-- One MediaInfo track, reduced to the fields `scrape_file` and
`_tracks_ok` consult: whether `istruncated == "Yes"`, and `track_type`. -/
structure Track where
  istruncatedYes : Bool
  track_type : String
deriving DecidableEq, Repr

/-- State of a `MediainfoScraper` run; `μ` is the type of the metadata
model objects produced by `iterate_models` (the model classes live in
`mediainfo_model.py`, outside `src/`). -/
structure MediaState (μ : Type) where
  messages : List String
  errors : List MediaErr
  streams : List μ
deriving DecidableEq, Repr

/-- Inputs of a `MediainfoScraper` run: the `MediaInfo.parse` outcome
(exception text or track list) and the predefined mimetype/version. -/
structure MediaEnv where
  parse : Except String (List Track)
  predefined_mimetype : Option String
  predefined_version : Option String
deriving Repr

namespace MediainfoScraper

/-- The accumulating loop of `_tracks_ok`: walk the tracks carrying the
`truncated` and `track_found` flags and the errors appended along the way
(one "The file is truncated." per truncated track). -/
def tracksScan (tracks : List Track) : Bool × Bool × List MediaErr :=
  tracks.foldl
    (fun acc t =>
      let truncated := acc.1
      let found := acc.2.1
      let errs := acc.2.2
      let truncated2 := truncated || t.istruncatedYes
      let errs2 :=
        if t.istruncatedYes then errs ++ [MediaErr.fileTruncated] else errs
      let found2 :=
        found || (["audio", "video"].contains (toLowerStr t.track_type))
      (truncated2, found2, errs2))
    (false, false, [])

/-- The verdict of `_tracks_ok`: not truncated, and at least one audio or
video track present. -/
def tracksOk (tracks : List Track) : Bool :=
  !(tracksScan tracks).1 && (tracksScan tracks).2.1

/-- All errors `_tracks_ok` appends: the per-track truncation errors, then
"No audio or video tracks found." when no A/V track exists, then "File
contains a truncated track." when some track was truncated. -/
def tracksErrors (tracks : List Track) : List MediaErr :=
  (tracksScan tracks).2.2
    ++ (if !(tracksScan tracks).2.1 then [MediaErr.noAVTracks] else [])
    ++ (if (tracksScan tracks).1 then [MediaErr.truncatedTrack] else [])

/-- The per-track body of the stream loop in `scrape_file`, folded over
the enumerated tracks.  `trackMime` stands for
`file_scraper.mediainfo.track_mimetype` and `iterModels` for
`iterate_models` (both defined outside `src/`); `pm`/`pv` are the
predefined mimetype and version. -/
def streamLoop {μ : Type} (trackMime : Track → Option String)
    (iterModels : Option String → Option String → List Track → Nat → List μ)
    (pm pv : Option String) (tracks : List Track) : List μ × List MediaErr :=
  (tracks.enum).foldl
    (fun acc it =>
      let streams := acc.1
      let errs := acc.2
      let index := it.1
      let track := it.2
      let mv : Option String × Option String :=
        if streams.length == 0 then
          (pm, pv)
        else if pm == some "audio/x-wav"
            || (tracks.head?.bind trackMime) == some "audio/x-wav" then
          (some "audio/x-wav", none)
        else
          (trackMime track, none)
      let track_type := toLowerStr track.track_type
      let errs2 :=
        if ["audio", "video"].contains track_type && mv.1 == none then
          errs ++ [MediaErr.unidentifiedStream track_type]
        else errs
      (streams ++ iterModels mv.1 mv.2 tracks index, errs2))
    ([], [])

/-- The `scrape_file` method of `MediainfoScraper`.  A parse exception
records two errors and runs `_check_supported` (which, modelled from the
spec, appends zero or more errors, here `checkErrsDefault`, and never
touches streams); a `_tracks_ok` failure records its errors and returns at
once; otherwise the success message is recorded and the enumerated track
loop builds the streams, after which `_check_supported` with the
`allow_unav_version`/`allow_unap_version` tolerances appends
`checkErrsTolerant`. -/
def scrape_file {μ : Type} (trackMime : Track → Option String)
    (iterModels : Option String → Option String → List Track → Nat → List μ)
    (checkErrsDefault checkErrsTolerant : List MediaErr)
    (env : MediaEnv) : MediaState μ :=
  match env.parse with
  | Except.error e =>
    { messages := [],
      errors := [MediaErr.analyzeError, MediaErr.exceptionText e]
        ++ checkErrsDefault,
      streams := [] }
  | Except.ok tracks =>
    if !(tracksOk tracks) then
      { messages := [], errors := tracksErrors tracks, streams := [] }
    else
      let loopOut := streamLoop trackMime iterModels
        env.predefined_mimetype env.predefined_version tracks
      { messages := ["The file was analyzed successfully."],
        errors := tracksErrors tracks ++ loopOut.2 ++ checkErrsTolerant,
        streams := loopOut.1 }

end MediainfoScraper

/-! ## Helper lemmas -/

theorem contains_eq_true_iff {α : Type} [DecidableEq α] (l : List α) (a : α) :
    l.contains a = true ↔ a ∈ l :=
  List.elem_iff

theorem contains_pair_iff (l : List (String × String)) (a : String × String) :
    l.contains a = true ↔ a ∈ l :=
  List.elem_iff

theorem contains_optBool_iff (l : List (Option Bool)) (a : Option Bool) :
    l.contains a = true ↔ a ∈ l :=
  List.elem_iff

theorem containsPat_iff (pat l : List Char) :
    containsPat pat l = true ↔ List.IsInfix pat l := by
  induction l with
  | nil =>
    simp [containsPat, List.isEmpty_iff]
  | cons c rest ih =>
    simp [containsPat, List.infix_cons_iff, ih, List.isPrefixOf_iff_prefix]

theorem iterScrapersGo_eq (f : ScraperClass → ScraperInput → Bool)
    (inp : ScraperInput) (l : List ScraperClass) (found : Bool) :
    iterScrapersGo f inp l found =
      l.filter (fun s => f s inp)
        ++ (if found || !(l.filter (fun s => f s inp)).isEmpty then []
            else [ScraperClass.ScraperNotFound]) := by
  induction l generalizing found with
  | nil =>
    cases found <;> simp [iterScrapersGo]
  | cons s rest ih =>
    by_cases hf : f s inp = true
    · simp [iterScrapersGo, hf, List.filter_cons, ih]
    · have hf2 : f s inp = false := by
        cases h : f s inp
        · rfl
        · exact absurd h hf
      simp [iterScrapersGo, hf2, List.filter_cons, ih]

/-! ## Claim theorems -/

/-- C7: for every (mimetype, version) pair, `MIMEGrader.grade` returns the
grade stored in the per-format table when both the mimetype and the
version are present, and `UNACCEPTABLE` on any lookup miss (mimetype
absent, or version absent for a known mimetype). -/
theorem mimeGrader_grade_spec (m v : String) :
    (∀ table g, MIMEGrader.formats.lookup m = some table →
      table.lookup v = some g → MIMEGrader.grade m v = g) ∧
    (MIMEGrader.formats.lookup m = none →
      MIMEGrader.grade m v = UNACCEPTABLE) ∧
    (∀ table, MIMEGrader.formats.lookup m = some table →
      table.lookup v = none → MIMEGrader.grade m v = UNACCEPTABLE) := by
  refine ⟨?_, ?_, ?_⟩
  · intro table g h1 h2
    simp [MIMEGrader.grade, h1, h2]
  · intro h1
    simp [MIMEGrader.grade, h1]
  · intro table h1 h2
    simp [MIMEGrader.grade, h1, h2]

/-- Witness for C7: `image/png` version `1.2` is stored as `RECOMMENDED`
and `grade` returns it. -/
theorem mimeGrader_grade_spec_witness :
    MIMEGrader.grade "image/png" "1.2" = RECOMMENDED :=
  (mimeGrader_grade_spec "image/png" "1.2").1
    [("1.2", RECOMMENDED)] RECOMMENDED (by decide) (by decide)

/-- C8: `ScraperNotFound.well_formed` is False whatever the collected
state (never None), and `scrape_file` appends exactly one error message
and one dummy stream entry; from the fresh state this leaves exactly one
of each. -/
theorem scraperNotFound_spec (s : DummyState) :
    ScraperNotFound.well_formed s = some false ∧
    (ScraperNotFound.scrape_file s).errors
      = s.errors ++ [ScraperNotFound.notFoundError] ∧
    (ScraperNotFound.scrape_file s).streams = s.streams ++ [()] ∧
    (ScraperNotFound.scrape_file DummyState.fresh).errors.length = 1 ∧
    (ScraperNotFound.scrape_file DummyState.fresh).streams.length = 1 := by
  refine ⟨rfl, rfl, rfl, rfl, rfl⟩

/-- C2: `iter_scrapers` yields, in the order of its fixed scraper list,
exactly those classes whose `is_supported` answers true; when none
matches it yields the sentinel `ScraperNotFound`, exactly once and as the
only item; and the sentinel is not part of the fixed list, so it is never
yielded otherwise. -/
theorem iter_scrapers_spec (f : ScraperClass → ScraperInput → Bool)
    (inp : ScraperInput) :
    ((∃ s ∈ scrapersList, f s inp = true) →
      iter_scrapers f inp = scrapersList.filter (fun s => f s inp)) ∧
    ((∀ s ∈ scrapersList, f s inp = false) →
      iter_scrapers f inp = [ScraperClass.ScraperNotFound]) ∧
    ScraperClass.ScraperNotFound ∉ scrapersList := by
  refine ⟨?_, ?_, by decide⟩
  · rintro ⟨s, hs, hf⟩
    have hne : (scrapersList.filter (fun s => f s inp)).isEmpty = false := by
      have : s ∈ scrapersList.filter (fun s => f s inp) :=
        List.mem_filter.mpr ⟨hs, hf⟩
      cases h : (scrapersList.filter (fun s => f s inp)) with
      | nil => rw [h] at this; cases this
      | cons a l => rfl
    simp [iter_scrapers, iterScrapersGo_eq, hne]
  · intro hall
    have hemp : scrapersList.filter (fun s => f s inp) = [] := by
      apply List.filter_eq_nil_iff.mpr
      intro s hs
      simp [hall s hs]
    simp [iter_scrapers, iterScrapersGo_eq, hemp]

/-- Witness for C2: with a predicate supporting only `MediainfoScraper`
and `MagicScraper`, exactly those two are yielded in list order; with a
predicate supporting nothing, the sentinel alone is yielded. -/
theorem iter_scrapers_spec_witness :
    iter_scrapers
        (fun s _ => s == ScraperClass.MediainfoScraper
          || s == ScraperClass.MagicScraper) ⟨"video/mp4", none, true⟩
      = [ScraperClass.MediainfoScraper, ScraperClass.MagicScraper] ∧
    iter_scrapers (fun _ _ => false) ⟨"foo", none, false⟩
      = [ScraperClass.ScraperNotFound] := by
  constructor
  · have h := (iter_scrapers_spec
      (fun s _ => s == ScraperClass.MediainfoScraper
        || s == ScraperClass.MagicScraper) ⟨"video/mp4", none, true⟩).1
      ⟨ScraperClass.MediainfoScraper, by decide, by decide⟩
    rw [h]
    decide
  · have h := (iter_scrapers_spec (fun _ _ => false) ⟨"foo", none, false⟩).2.1
      (by intro s _; rfl)
    exact h

theorem charsetLoop_eq_none_iff (streams : List StreamRec) (g : Grade) :
    TextGrader.charsetLoop streams g = none
      ↔ ∃ s ∈ streams, s.charset = none := by
  induction streams generalizing g with
  | nil => simp [TextGrader.charsetLoop]
  | cons s rest ih =>
    cases hc : s.charset with
    | none => simp [TextGrader.charsetLoop, hc]
    | some c => simp [TextGrader.charsetLoop, hc, ih]

theorem charsetLoop_allowed (streams : List StreamRec) (g : Grade)
    (h : ∀ s ∈ streams, ∃ c, s.charset = some c
      ∧ c ∈ TextGrader.allowed_charsets) :
    TextGrader.charsetLoop streams g = some g := by
  induction streams generalizing g with
  | nil => simp [TextGrader.charsetLoop]
  | cons s rest ih =>
    obtain ⟨c, hc, hmem⟩ := h s (List.mem_cons_self s rest)
    have hcontains : TextGrader.allowed_charsets.contains c = true :=
      (contains_eq_true_iff _ _).mpr hmem
    have hrest : ∀ t ∈ rest, ∃ c, t.charset = some c
        ∧ c ∈ TextGrader.allowed_charsets :=
      fun t ht => h t (List.mem_cons_of_mem s ht)
    simp only [TextGrader.charsetLoop, hc]
    rw [if_pos hcontains]
    exact ih _ hrest

theorem charsetLoop_from_unacceptable (streams : List StreamRec)
    (h : ∀ s ∈ streams, (s.charset).isSome = true) :
    TextGrader.charsetLoop streams UNACCEPTABLE = some UNACCEPTABLE := by
  induction streams with
  | nil => simp [TextGrader.charsetLoop]
  | cons s rest ih =>
    have hs := h s (List.mem_cons_self s rest)
    obtain ⟨c, hc⟩ := Option.isSome_iff_exists.mp hs
    have hrest : ∀ t ∈ rest, (t.charset).isSome = true :=
      fun t ht => h t (List.mem_cons_of_mem s ht)
    simp only [TextGrader.charsetLoop, hc]
    by_cases hcc : TextGrader.allowed_charsets.contains c = true
    · rw [if_pos hcc]
      exact ih hrest
    · rw [if_neg hcc]
      exact ih hrest

theorem charsetLoop_bad_charset (streams : List StreamRec) (g : Grade)
    (hall : ∀ s ∈ streams, (s.charset).isSome = true)
    (h : ∃ s ∈ streams, ∃ c, s.charset = some c
      ∧ c ∉ TextGrader.allowed_charsets) :
    TextGrader.charsetLoop streams g = some UNACCEPTABLE := by
  induction streams generalizing g with
  | nil => simp at h
  | cons s rest ih =>
    have hs := hall s (List.mem_cons_self s rest)
    obtain ⟨c, hc⟩ := Option.isSome_iff_exists.mp hs
    have hrest : ∀ t ∈ rest, (t.charset).isSome = true :=
      fun t ht => hall t (List.mem_cons_of_mem s ht)
    obtain ⟨t, ht, c2, hc2, hbad⟩ := h
    simp only [TextGrader.charsetLoop, hc]
    rcases List.mem_cons.mp ht with rfl | htr
    · have hceq : c2 = c := by
        rw [hc] at hc2
        exact (Option.some_inj.mp hc2).symm
      have hcc : ¬ (TextGrader.allowed_charsets.contains c = true) := by
        intro hcon
        exact hbad (hceq ▸ (contains_eq_true_iff _ _).mp hcon)
      rw [if_neg hcc]
      exact charsetLoop_from_unacceptable rest hrest
    · by_cases hcc : TextGrader.allowed_charsets.contains c = true
      · rw [if_pos hcc]
        exact ih _ hrest ⟨t, htr, c2, hc2, hbad⟩
      · rw [if_neg hcc]
        exact charsetLoop_from_unacceptable rest hrest

/-- C9: `TextGrader.grade` reads the `charset` key of every stream
unconditionally, so it returns a grade exactly when every stream carries a
charset entry; a stream map containing a stream without a `charset` key
makes the access raise `KeyError` (result `none`) instead of returning a
grade. -/
theorem textGrader_charset_keyerror_spec (m v : String)
    (streams : List StreamRec) :
    ((∃ s ∈ streams, s.charset = none) →
      TextGrader.grade m v streams = none) ∧
    ((∀ s ∈ streams, (s.charset).isSome = true) →
      ∃ g, TextGrader.grade m v streams = some g) := by
  constructor
  · intro h
    exact (charsetLoop_eq_none_iff streams _).mpr h
  · intro h
    cases hg : TextGrader.grade m v streams with
    | none =>
      obtain ⟨s, hs, hnone⟩ :=
        (charsetLoop_eq_none_iff streams (TextGrader.tableGrade m v)).mp hg
      have := h s hs
      rw [hnone] at this
      cases this
    | some g => exact ⟨g, rfl⟩

/-- Witness for C9: a stream without a charset entry makes `grade` raise
(first conjunct); with charsets present a grade is returned (second). -/
theorem textGrader_charset_keyerror_spec_witness :
    TextGrader.grade "text/xml" "1.0"
        [⟨"text/xml", "1.0", none⟩] = none ∧
    ∃ g, TextGrader.grade "text/xml" "1.0"
        [⟨"text/xml", "1.0", some "UTF-8"⟩] = some g := by
  constructor
  · exact (textGrader_charset_keyerror_spec "text/xml" "1.0"
      [⟨"text/xml", "1.0", none⟩]).1 ⟨_, List.mem_singleton_self _, rfl⟩
  · exact (textGrader_charset_keyerror_spec "text/xml" "1.0"
      [⟨"text/xml", "1.0", some "UTF-8"⟩]).2 (by intro s hs; simp at hs; simp [hs])

/-- Counterexample for C6 as stated: `text/csv` is supported by the text
grader and its table grade for version `"(:unap)"` is `RECOMMENDED`, yet
on a stream map whose stream lacks a `charset` entry `grade` raises
`KeyError` (result `none`), returning neither the table grade nor
`UNACCEPTABLE`. -/
theorem textGrader_missing_charset_cx :
    TextGrader.is_supported "text/csv" = true ∧
    TextGrader.tableGrade "text/csv" UNAP = RECOMMENDED ∧
    TextGrader.grade "text/csv" UNAP [⟨"text/csv", UNAP, none⟩] = none := by
  refine ⟨by decide, by decide, rfl⟩

/-- C6 amended: for every mimetype supported by the text grader and every
stream map in which each stream carries a `charset` entry,
`TextGrader.grade` returns the table grade for (mimetype, version), except
that any stream charset outside the four-element allow-list forces the
grade to `UNACCEPTABLE` regardless of the table lookup result. -/
theorem textGrader_grade_amended (m v : String) (streams : List StreamRec)
    (_hsup : TextGrader.is_supported m = true)
    (hall : ∀ s ∈ streams, (s.charset).isSome = true) :
    ((∀ s ∈ streams, ∀ c, s.charset = some c →
        c ∈ TextGrader.allowed_charsets) →
      TextGrader.grade m v streams = some (TextGrader.tableGrade m v)) ∧
    ((∃ s ∈ streams, ∃ c, s.charset = some c ∧
        c ∉ TextGrader.allowed_charsets) →
      TextGrader.grade m v streams = some UNACCEPTABLE) := by
  constructor
  · intro h
    apply charsetLoop_allowed
    intro s hs
    obtain ⟨c, hc⟩ := Option.isSome_iff_exists.mp (hall s hs)
    exact ⟨c, hc, h s hs c hc⟩
  · intro h
    exact charsetLoop_bad_charset streams _ hall h

/-- Witness for C6 (amended): `text/plain` with a `UTF-8` stream gets its
table grade; with a `latin-1` stream the grade collapses to
`UNACCEPTABLE`. -/
theorem textGrader_grade_amended_witness :
    TextGrader.grade "text/plain" UNAP
        [⟨"text/plain", UNAP, some "UTF-8"⟩]
      = some (TextGrader.tableGrade "text/plain" UNAP) ∧
    TextGrader.grade "text/plain" UNAP
        [⟨"text/plain", UNAP, some "latin-1"⟩]
      = some UNACCEPTABLE := by
  constructor
  · exact (textGrader_grade_amended "text/plain" UNAP
      [⟨"text/plain", UNAP, some "UTF-8"⟩] (by decide)
      (by intro s hs; simp at hs; simp [hs])).1
      (by intro s hs c hc; simp at hs; rw [hs] at hc; simp at hc
          subst hc; decide)
  · exact (textGrader_grade_amended "text/plain" UNAP
      [⟨"text/plain", UNAP, some "latin-1"⟩] (by decide)
      (by intro s hs; simp at hs; simp [hs])).2
      ⟨_, List.mem_singleton_self _, "latin-1", rfl, by decide⟩

/-- C1: for every stream map whose index-0 stream has a container
mimetype supported by the container grader, `ContainerGrader.grade`
returns `RECOMMENDED` when the (mimetype, version) pairs of all streams
with nonzero index all lie in that container mimetype's recommended set
(in particular whenever there are no such streams); otherwise
`ACCEPTABLE` when they all lie in the union of the recommended and
acceptable sets; otherwise `UNACCEPTABLE`. -/
theorem containerGrader_grade_spec (streams : List (Nat × StreamRec))
    (container : StreamRec)
    (h0 : streams.lookup 0 = some container)
    (_hsup : ContainerGrader.is_supported container.mimetype = true) :
    ((∀ p ∈ ContainerGrader.containedFormats streams,
        p ∈ ContainerGrader.recommendedFor container.mimetype) →
      ContainerGrader.grade streams = some RECOMMENDED) ∧
    ((¬ (∀ p ∈ ContainerGrader.containedFormats streams,
        p ∈ ContainerGrader.recommendedFor container.mimetype)) →
      (∀ p ∈ ContainerGrader.containedFormats streams,
        p ∈ ContainerGrader.recommendedFor container.mimetype
          ∨ p ∈ ContainerGrader.acceptableFor container.mimetype) →
      ContainerGrader.grade streams = some ACCEPTABLE) ∧
    ((¬ (∀ p ∈ ContainerGrader.containedFormats streams,
        p ∈ ContainerGrader.recommendedFor container.mimetype
          ∨ p ∈ ContainerGrader.acceptableFor container.mimetype)) →
      ContainerGrader.grade streams = some UNACCEPTABLE) := by
  have hrec : ((ContainerGrader.containedFormats streams).all
        (fun f => (ContainerGrader.recommendedFor container.mimetype).contains f)
        = true)
      ↔ ∀ p ∈ ContainerGrader.containedFormats streams,
          p ∈ ContainerGrader.recommendedFor container.mimetype := by
    simp only [List.all_eq_true, contains_pair_iff]
  have hacc : ((ContainerGrader.containedFormats streams).all
        (fun f =>
          (ContainerGrader.recommendedFor container.mimetype).contains f
            || (ContainerGrader.acceptableFor container.mimetype).contains f)
        = true)
      ↔ ∀ p ∈ ContainerGrader.containedFormats streams,
          p ∈ ContainerGrader.recommendedFor container.mimetype
            ∨ p ∈ ContainerGrader.acceptableFor container.mimetype := by
    simp only [List.all_eq_true, Bool.or_eq_true, contains_pair_iff]
  refine ⟨?_, ?_, ?_⟩
  · intro hp
    simp only [ContainerGrader.grade, h0]
    rw [if_pos (hrec.mpr hp)]
  · intro hn hp
    simp only [ContainerGrader.grade, h0]
    rw [if_neg (fun hb => hn (hrec.mp hb)), if_pos (hacc.mpr hp)]
  · intro hn
    have hnr : ¬ ((ContainerGrader.containedFormats streams).all
        (fun f => (ContainerGrader.recommendedFor container.mimetype).contains f)
        = true) :=
      fun hb => hn (fun p hp => Or.inl (hrec.mp hb p hp))
    simp only [ContainerGrader.grade, h0]
    rw [if_neg hnr, if_neg (fun hb => hn (hacc.mp hb))]

/-- Witness for C1: an mp4 container holding an mp4 audio stream and an
MPEG-2 video stream is not inside the recommended set alone but is inside
recommended plus acceptable, so the grade is `ACCEPTABLE`. -/
theorem containerGrader_grade_spec_witness :
    ContainerGrader.grade
        [(0, ⟨"video/mp4", UNAP, none⟩),
         (1, ⟨"audio/mp4", UNAP, none⟩),
         (2, ⟨"video/mpeg", "2", none⟩)]
      = some ACCEPTABLE :=
  (containerGrader_grade_spec _ ⟨"video/mp4", UNAP, none⟩
    (by decide) (by decide)).2.1 (by decide) (by decide)

theorem hasMarker_iff (m : String) :
    GhostscriptScraper.hasMarker m = true
      ↔ (List.IsInfix "**** error".data (toLowerStr m).data
          ∨ List.IsInfix "**** warning".data (toLowerStr m).data) := by
  simp [GhostscriptScraper.hasMarker, containsPat_iff]

/-- C4: `GhostscriptScraper.well_formed` answers False whenever any
collected message contains `"**** error"` or `"**** warning"`
case-insensitively — in particular even when the error list is empty and
the supported-declaration check passed, i.e. when the tool exited with
status 0 — and only when no message contains a marker does it fall back
to the default well-formedness computation of the base class. -/
theorem ghostscript_wellformed_spec (s : GhostState) (matched : Bool) :
    ((∃ m ∈ s.messages,
        List.IsInfix "**** error".data (toLowerStr m).data
          ∨ List.IsInfix "**** warning".data (toLowerStr m).data) →
      GhostscriptScraper.well_formed s matched = some false) ∧
    ((∀ m ∈ s.messages,
        ¬ List.IsInfix "**** error".data (toLowerStr m).data
          ∧ ¬ List.IsInfix "**** warning".data (toLowerStr m).data) →
      GhostscriptScraper.well_formed s matched
        = baseWellFormed s.errors matched) := by
  constructor
  · rintro ⟨m, hm, hmark⟩
    have hany : s.messages.any GhostscriptScraper.hasMarker = true := by
      rw [List.any_eq_true]
      exact ⟨m, hm, (hasMarker_iff m).mpr hmark⟩
    simp [GhostscriptScraper.well_formed, hany]
  · intro h
    have hany : s.messages.any GhostscriptScraper.hasMarker = false := by
      cases hq : s.messages.any GhostscriptScraper.hasMarker
      · rfl
      · obtain ⟨m, hm, hmark⟩ := List.any_eq_true.mp hq
        rcases (hasMarker_iff m).mp hmark with hbad | hbad
        · exact absurd hbad (h m hm).1
        · exact absurd hbad (h m hm).2
    simp [GhostscriptScraper.well_formed, hany]

/-- Witness for C4: a message carrying `"**** Error"` (mixed case) forces
the verdict to False although the error list is empty and the
supported-declaration check passed — the base computation alone would
have answered True. -/
theorem ghostscript_wellformed_spec_witness :
    GhostscriptScraper.well_formed ⟨["**** Error: corrupt input"], [], []⟩ true
        = some false ∧
    baseWellFormed ([] : List GhostErr) true = some true := by
  constructor
  · exact (ghostscript_wellformed_spec ⟨["**** Error: corrupt input"], [], []⟩
      true).1
      ⟨"**** Error: corrupt input", List.mem_singleton_self _,
        Or.inl ((containsPat_iff _ _).mp (by decide))⟩
  · rfl

/-- C10: whenever `WarcWarctoolsScraper.scrape_file` reaches the
metadata-construction step (well-formedness check requested, nonzero file
size, and the archive read raising no non-IOError exception), the loop
over `_supported_metadata` is written out twice, so exactly two
`WarcWarctoolsMeta` entries — both built from the same first line — end up
in the stream list. -/
theorem warc_duplicate_streams_spec (env : WarcEnv)
    (hwf : env.check_wellformed = true) (hsz : env.size ≠ 0) :
    (∀ line, env.gzipRead = GzipReadResult.ok line →
      (WarcWarctoolsScraper.scrape_file env).streams
        = [WarcWarctoolsMeta.mk line, WarcWarctoolsMeta.mk line]) ∧
    (∀ line, env.gzipRead = GzipReadResult.ioError line →
      (WarcWarctoolsScraper.scrape_file env).streams
        = [WarcWarctoolsMeta.mk line, WarcWarctoolsMeta.mk line]) := by
  have hsz2 : (env.size == 0) = false := by
    cases h : env.size == 0
    · rfl
    · exact absurd (beq_iff_eq.mp h) hsz
  constructor
  · intro line hread
    simp [WarcWarctoolsScraper.scrape_file, hwf, hsz2, hread]
  · intro line hread
    simp [WarcWarctoolsScraper.scrape_file, hwf, hsz2, hread]

/-- Witness for C10: a nonempty file whose first line reads
`"WARC/1.0"` yields exactly the two duplicate stream entries. -/
theorem warc_duplicate_streams_spec_witness :
    (WarcWarctoolsScraper.scrape_file
        ⟨true, 5, 0, "ok", [], GzipReadResult.ok "WARC/1.0"⟩).streams
      = [WarcWarctoolsMeta.mk "WARC/1.0", WarcWarctoolsMeta.mk "WARC/1.0"] :=
  (warc_duplicate_streams_spec
      ⟨true, 5, 0, "ok", [], GzipReadResult.ok "WARC/1.0"⟩
      rfl (by decide)).1 "WARC/1.0" rfl

/-- Counterexample for C3 as stated: `WarcWarctoolsScraper.scrape_file`
on an empty input file (with the well-formedness check requested) exits
with an *empty* stream list — only the "Empty file." error is recorded —
so the stream list is not always nonempty after execution.  The
repository's own test suite asserts exactly this emptiness
(`assert not scraper.streams` in `tests/scrapers/warctools_test.py`). -/
theorem warc_empty_streams_cx :
    (WarcWarctoolsScraper.scrape_file
        ⟨true, 0, 0, "", [], GzipReadResult.ok ""⟩).streams = [] ∧
    (WarcWarctoolsScraper.scrape_file
        ⟨true, 0, 0, "", [], GzipReadResult.ok ""⟩).errors
      = [WarcErr.emptyFile] := by
  exact ⟨rfl, rfl⟩

/-- C3 amended: `ScraperNotFound.scrape_file` always leaves at least one
stream entry, but the guarantee does not extend to every adapter:
`WarcWarctoolsScraper` leaves the stream list empty on an empty input
file, and `MediainfoScraper` leaves it empty when MediaInfo parsing
raises or when no audio/video track is found. -/
theorem scrape_file_streams_amended :
    (∀ s : DummyState, 1 ≤ ((ScraperNotFound.scrape_file s).streams).length) ∧
    (∀ env : WarcEnv, env.check_wellformed = true → env.size = 0 →
      (WarcWarctoolsScraper.scrape_file env).streams = []) ∧
    (∀ (μ : Type) (trackMime : Track → Option String)
        (iterModels : Option String → Option String → List Track → Nat → List μ)
        (ce1 ce2 : List MediaErr) (env : MediaEnv) (e : String),
      env.parse = Except.error e →
      (MediainfoScraper.scrape_file trackMime iterModels ce1 ce2 env).streams
        = []) ∧
    (∀ (μ : Type) (trackMime : Track → Option String)
        (iterModels : Option String → Option String → List Track → Nat → List μ)
        (ce1 ce2 : List MediaErr) (env : MediaEnv) (tracks : List Track),
      env.parse = Except.ok tracks →
      MediainfoScraper.tracksOk tracks = false →
      (MediainfoScraper.scrape_file trackMime iterModels ce1 ce2 env).streams
        = []) := by
  refine ⟨?_, ?_, ?_, ?_⟩
  · intro s
    simp [ScraperNotFound.scrape_file]
  · intro env hwf hsz
    simp [WarcWarctoolsScraper.scrape_file, hwf, hsz]
  · intro μ trackMime iterModels ce1 ce2 env e hp
    simp [MediainfoScraper.scrape_file, hp]
  · intro μ trackMime iterModels ce1 ce2 env tracks hp hok
    simp [MediainfoScraper.scrape_file, hp, hok]

/-- Witness for C3 (amended): a MediaInfo run over a single
general-type track (no audio or video) leaves the stream list empty. -/
theorem scrape_file_streams_amended_witness :
    (MediainfoScraper.scrape_file (fun _ => none)
        (fun _ _ _ _ => ([] : List Unit)) [] []
        ⟨Except.ok [⟨false, "General"⟩], some "video/mp4", none⟩).streams
      = [] :=
  scrape_file_streams_amended.2.2.2 Unit (fun _ => none)
    (fun _ _ _ _ => []) [] []
    ⟨Except.ok [⟨false, "General"⟩], some "video/mp4", none⟩
    [⟨false, "General"⟩] rfl (by decide)

/-- C5: when a predefined mimetype was supplied and the resulting
(detected/scraped) mimetype differs from it and from every alias allowed
for it — or a predefined version was supplied and the resulting version
differs — `MimeScraper.scrape_file` records a mismatch error, and the
aggregate well-formedness merge comes out False even when every other
adapter reported True (the `MimeScraper` verdict itself follows the
spec-modelled base-class computation, which answers False on a nonempty
error list). -/
theorem mimeScraper_mismatch_spec (env : MimeEnv) (others : List (Option Bool))
    (_hothers : ∀ w ∈ others, w = some true)
    (h : (∃ p, env.predefined_mimetype = some p ∧
            env.params_mimetype.getD UNAV ≠ p ∧
            env.params_mimetype.getD UNAV ∉
              ((MimeScraper.MIME_DICT.lookup p).getD []) ∧
            env.params_mimetype.getD UNAV ≠ UNAV) ∨
         (∃ pv, env.predefined_version = some pv ∧
            pv ≠ env.params_version.getD UNAV)) :
    (∃ e ∈ (MimeScraper.scrape_file env).errors,
        (∃ a b, e = MimeErr.mimeMismatch a b)
          ∨ (∃ a b, e = MimeErr.versionMismatch a b)) ∧
    mergeWellFormed
        (others ++ [baseWellFormed (MimeScraper.scrape_file env).errors true])
      = some false := by
  have hmem : ∃ e ∈ (MimeScraper.scrape_file env).errors,
      (∃ a b, e = MimeErr.mimeMismatch a b)
        ∨ (∃ a b, e = MimeErr.versionMismatch a b) := by
    rcases h with ⟨p, hpm, hne, hnotin, hnunav⟩ | ⟨pv, hpv, hne⟩
    · have h1 : MimeScraper.mimeErrors env
          = [MimeErr.mimeMismatch env.predefined_mimetype
              (env.params_mimetype.getD UNAV)] := by
        simp only [MimeScraper.mimeErrors]
        rw [if_neg (by simp [hnunav]),
          if_pos (by simp [hpm, Ne.symm hne, hnotin])]
      refine ⟨MimeErr.mimeMismatch env.predefined_mimetype
        (env.params_mimetype.getD UNAV), ?_, Or.inl ⟨_, _, rfl⟩⟩
      show _ ∈ MimeScraper.mimeErrors env ++ MimeScraper.versionErrors env
      rw [h1]
      exact List.mem_append_left _ (List.mem_singleton_self _)
    · have h2 : MimeScraper.versionErrors env
          = [MimeErr.versionMismatch pv (env.params_version.getD UNAV)] := by
        simp only [MimeScraper.versionErrors, hpv]
        rw [if_pos (by simp [hne])]
      refine ⟨MimeErr.versionMismatch pv (env.params_version.getD UNAV),
        ?_, Or.inr ⟨_, _, rfl⟩⟩
      show _ ∈ MimeScraper.mimeErrors env ++ MimeScraper.versionErrors env
      rw [h2]
      exact List.mem_append_right _ (List.mem_singleton_self _)
  refine ⟨hmem, ?_⟩
  obtain ⟨e, he, _⟩ := hmem
  have hne2 : (MimeScraper.scrape_file env).errors ≠ [] := by
    intro hq
    rw [hq] at he
    cases he
  obtain ⟨a, t, hat⟩ := List.exists_cons_of_ne_nil hne2
  have hwf : baseWellFormed (MimeScraper.scrape_file env).errors true
      = some false := by
    simp [baseWellFormed, hat]
  have hcontains :
      (others ++ [baseWellFormed (MimeScraper.scrape_file env).errors true]).contains
        (some false) = true :=
    (contains_optBool_iff _ _).mpr
      (List.mem_append_right _ (List.mem_singleton.mpr hwf.symm))
  simp only [mergeWellFormed]
  rw [if_pos hcontains]

/-- Witness for C5: predefined mimetype `video/mpeg` with resulting
mimetype `image/png` records a mimetype mismatch error, and the merge of
two True verdicts with the `MimeScraper` verdict is False. -/
theorem mimeScraper_mismatch_spec_witness :
    (∃ e ∈ (MimeScraper.scrape_file
        ⟨some "video/mpeg", none, some "image/png", none⟩).errors,
        (∃ a b, e = MimeErr.mimeMismatch a b)
          ∨ (∃ a b, e = MimeErr.versionMismatch a b)) ∧
    mergeWellFormed
        ([some true, some true] ++
          [baseWellFormed (MimeScraper.scrape_file
            ⟨some "video/mpeg", none, some "image/png", none⟩).errors true])
      = some false :=
  mimeScraper_mismatch_spec
    ⟨some "video/mpeg", none, some "image/png", none⟩
    [some true, some true]
    (by decide)
    (Or.inl ⟨"video/mpeg", rfl, by decide, by decide, by decide⟩)

end FileScraper
